import Mathlib

/-!
Shallow embedding of the two CUDA driver-API demo programs
(driver_api.cpp and unified_memory.cpp): vector addition of three
integer arrays of size N = 10.  Host-side control flow is modelled as
explicit state passing over an Output record holding structured stdout
and stderr lines and a trace of the operations performed; the results
of the vendor (CUDA driver) calls and the kernel's output array are
supplied by an Env record, since the driver itself is outside the
program.  exit(-1) is modelled as Except.error (-1); falling off the
end of main as Except.ok with final exit code 0.
-/

/-- A line printed by the program.  Lines carrying data that the claims
talk about are structured constructors; fixed text is the text
constructor.  cudaError is the stderr line printed by the
checkCudaErrors macro (numeric code, source file, source line);
errorAt is the stdout mismatch line of the result check (position,
expected value, got value). -/
inductive Line where
  | text (s : String)
  | cudaError (code : Int) (file : String) (srcLine : Nat)
  | errorAt (i : Nat) (expected got : Int)
deriving DecidableEq

/-- An operation performed by the program, recorded in the trace.
vendor records a driver-API call made during initCUDA; the memory,
launch, synchronization and host-read operations of the main body have
dedicated constructors carrying the size arguments the program passed. -/
inductive Event where
  | vendor (name : String)
  | populateInputs (n : Nat)
  | allocBuf (name : String) (n : Nat)
  | copyHtoD (n : Nat)
  | copyDtoH (n : Nat)
  | launch (gridX gridY gridZ blockX blockY blockZ : Nat) (nArg : Nat)
  | sync
  | readOutput (i : Nat)
  | freeBuf (name : String)
  | destroyCtx
deriving DecidableEq

/-- Accumulated observable behaviour of a run: stdout lines, stderr
lines, and the trace of operations. -/
structure Output where
  stdout : List Line
  stderr : List Line
  trace : List Event
deriving DecidableEq

def Output.empty : Output := ⟨[], [], []⟩

def Output.pr (o : Output) (l : Line) : Output :=
  { o with stdout := o.stdout ++ [l] }

def Output.epr (o : Output) (l : Line) : Output :=
  { o with stderr := o.stderr ++ [l] }

def Output.emit (o : Output) (e : Event) : Output :=
  { o with trace := o.trace ++ [e] }

/-- Result of running a program fragment: either it called exit with a
code (error) or control flowed on (ok), together with the output so far. -/
abbrev PResult := Except Int Unit × Output

/-- Sequencing: a fragment that already exited short-circuits the rest. -/
def pseq (r : PResult) (f : Output → PResult) : PResult :=
  match r with
  | (Except.error c, o) => (Except.error c, o)
  | (Except.ok _, o) => f o

@[simp] theorem pseq_ok (o : Output) (f : Output → PResult) :
    pseq (Except.ok (), o) f = f o := rfl

@[simp] theorem pseq_error (c : Int) (o : Output) (f : Output → PResult) :
    pseq (Except.error c, o) f = (Except.error c, o) := rfl

/-- Embedding of the checkCudaErrors macro (both files, lines 17-25):
on a non-success code it prints the numeric code, file and line to
stderr and exits with -1; on success it does nothing. -/
def checkCudaErrors (err : Int) (file : String) (srcLine : Nat) (o : Output) : PResult :=
  if err ≠ 0 then
    (Except.error (-1), o.epr (Line.cudaError err file srcLine))
  else
    (Except.ok (), o)

@[simp] theorem checkCudaErrors_zero (file : String) (srcLine : Nat) (o : Output) :
    checkCudaErrors 0 file srcLine o = (Except.ok (), o) := rfl

theorem checkCudaErrors_ne (err : Int) (h : err ≠ 0) (file : String) (srcLine : Nat)
    (o : Output) :
    checkCudaErrors err file srcLine o =
      (Except.error (-1), o.epr (Line.cudaError err file srcLine)) := by
  simp [checkCudaErrors, h]

/-- Results of the driver-API calls and the data they return, plus the
contents of the output array as observed by the host after the kernel
(the kernel itself runs on the GPU, outside this program).  A result
field of 0 is CUDA_SUCCESS. -/
structure Env where
  cuInit_res : Int
  deviceGetCount_res : Int
  deviceCount : Int
  deviceGet_res : Int
  deviceGetName_res : Int
  deviceName : String
  attrMajor_res : Int
  major : Int
  attrMinor_res : Int
  minor : Int
  totalMem_res : Int
  totalGlobalMem : Nat
  uvmAttr_res : Int
  hasUVM : Int
  ctxCreate_res : Int
  moduleLoad_res : Int
  getFunction_res : Int
  memAllocA_res : Int
  memAllocB_res : Int
  memAllocC_res : Int
  memcpyA_res : Int
  memcpyB_res : Int
  attrBlockDim_res : Int
  blockSize : Nat
  launch_res : Int
  streamSync_res : Int
  memcpyDtoH_res : Int
  cOut : List Int
  memFreeA_res : Int
  memFreeB_res : Int
  memFreeC_res : Int
  ctxDestroy_res : Int
deriving DecidableEq

/-- The value of the N macro (both files, line 11). -/
def N : Nat := 10

/-- Host initialization of array a in driver_api.cpp main
(lines 134-135): a[i] = n - i. -/
def driver_a (n : Nat) : List Int :=
  (List.range n).map (fun i => (n : Int) - (i : Int))

/-- Host initialization of array b in driver_api.cpp main
(lines 134-136): b[i] = i * i. -/
def driver_b (n : Nat) : List Int :=
  (List.range n).map (fun i => (i : Int) * (i : Int))

/-- Initialization of array d_a in unified_memory.cpp main
(lines 154-155): d_a[i] = n - i. -/
def unified_a (n : Nat) : List Int :=
  (List.range n).map (fun i => (n : Int) - (i : Int))

/-- Initialization of array d_b in unified_memory.cpp main
(lines 154-156): d_b[i] = i * i. -/
def unified_b (n : Nat) : List Int :=
  (List.range n).map (fun i => (i : Int) * (i : Int))

/-- The verification loop of driver_api.cpp main (lines 157-161): for
each i below n it reads c[i] and, if it differs from a[i] + b[i],
prints the mismatch line.  It never exits. -/
def driverCheckLoop (a b c : List Int) (n : Nat) (o : Output) : Output :=
  (List.range n).foldl
    (fun o i =>
      let o := o.emit (Event.readOutput i)
      if c.getD i 0 ≠ a.getD i 0 + b.getD i 0 then
        o.pr (Line.errorAt i (a.getD i 0 + b.getD i 0) (c.getD i 0))
      else o)
    o

/-- One verification pass of unified_memory.cpp main (lines 170-176 and
again 177-183): like the driver loop but also clearing the correct
flag on a mismatch. -/
def unifiedCheckPass (a b c : List Int) (n : Nat) (oc : Output × Bool) : Output × Bool :=
  (List.range n).foldl
    (fun oc i =>
      let o := oc.1.emit (Event.readOutput i)
      if c.getD i 0 ≠ a.getD i 0 + b.getD i 0 then
        (o.pr (Line.errorAt i (a.getD i 0 + b.getD i 0) (c.getD i 0)), false)
      else (o, oc.2))
    oc

/-- The stdout lines produced by one verification pass over indices
below n. -/
def checkLines (a b c : List Int) (n : Nat) : List Line :=
  (List.range n).filterMap
    (fun i =>
      if c.getD i 0 ≠ a.getD i 0 + b.getD i 0 then
        some (Line.errorAt i (a.getD i 0 + b.getD i 0) (c.getD i 0))
      else none)

/-- Whether one verification pass finds no mismatch below n. -/
def passOk (a b c : List Int) (n : Nat) : Bool :=
  (List.range n).all (fun i => c.getD i 0 == a.getD i 0 + b.getD i 0)

theorem driverCheckLoop_spec (a b c : List Int) (n : Nat) (o : Output) :
    driverCheckLoop a b c n o =
      { stdout := o.stdout ++ checkLines a b c n,
        stderr := o.stderr,
        trace := o.trace ++ (List.range n).map Event.readOutput } := by
  induction n generalizing o with
  | zero => simp [driverCheckLoop, checkLines]
  | succ n ih =>
      simp only [driverCheckLoop, List.range_succ, List.foldl_append, List.foldl_cons,
        List.foldl_nil, checkLines, List.filterMap_append, List.map_append] at *
      rw [ih]
      by_cases h : c.getD n 0 = a.getD n 0 + b.getD n 0 <;>
        simp only [List.getD_eq_getElem?_getD] at h ⊢ <;>
        simp [h, Output.pr, Output.emit, List.append_assoc]

theorem unifiedCheckPass_spec (a b c : List Int) (n : Nat) (o : Output) (corr : Bool) :
    unifiedCheckPass a b c n (o, corr) =
      ({ stdout := o.stdout ++ checkLines a b c n,
         stderr := o.stderr,
         trace := o.trace ++ (List.range n).map Event.readOutput },
       corr && passOk a b c n) := by
  induction n generalizing o corr with
  | zero => simp [unifiedCheckPass, checkLines, passOk]
  | succ n ih =>
      simp only [unifiedCheckPass, List.range_succ, List.foldl_append, List.foldl_cons,
        List.foldl_nil, checkLines, List.filterMap_append, List.map_append,
        passOk, List.all_append, List.all_cons, List.all_nil] at *
      rw [ih]
      by_cases h : c.getD n 0 = a.getD n 0 + b.getD n 0 <;>
        simp only [List.getD_eq_getElem?_getD] at h ⊢ <;>
        simp [h, Output.pr, Output.emit, List.append_assoc, beq_iff_eq]

/-- Embedding of initCUDA from driver_api.cpp (lines 39-94).  cuInit's
result is tested by hand: only on success is cuDeviceGetCount called,
so deviceCount keeps its initial value 0 when cuInit fails and the
no-devices message is printed.  cuDeviceGetName's result is ignored.
cuCtxCreate, cuModuleLoad and cuModuleGetFunction failures print a
descriptive message, destroy the context and exit. -/
def driver_initCUDA (env : Env) (o : Output) : PResult :=
  let o := o.emit (Event.vendor "cuInit")
  let r :=
    if env.cuInit_res = 0 then
      checkCudaErrors env.deviceGetCount_res "driver_api.cpp" 46
        (o.emit (Event.vendor "cuDeviceGetCount"))
    else (Except.ok (), o)
  pseq r (fun o =>
  let deviceCount : Int := if env.cuInit_res = 0 then env.deviceCount else 0
  if deviceCount = 0 then
    (Except.error (-1), o.epr (Line.text "Error: no devices supporting CUDA"))
  else
  pseq (checkCudaErrors env.deviceGet_res "driver_api.cpp" 54
      (o.emit (Event.vendor "cuDeviceGet"))) (fun o =>
  let o := o.emit (Event.vendor "cuDeviceGetName")
  let o := o.pr (Line.text ("> Using device 0: " ++ env.deviceName))
  pseq (checkCudaErrors env.attrMajor_res "driver_api.cpp" 61
      (o.emit (Event.vendor "cuDeviceGetAttribute"))) (fun o =>
  pseq (checkCudaErrors env.attrMinor_res "driver_api.cpp" 62
      (o.emit (Event.vendor "cuDeviceGetAttribute"))) (fun o =>
  let o := o.pr (Line.text ("> GPU Device has SM " ++ toString env.major ++ "." ++
    toString env.minor ++ " compute capability"))
  pseq (checkCudaErrors env.totalMem_res "driver_api.cpp" 65
      (o.emit (Event.vendor "cuDeviceTotalMem"))) (fun o =>
  let o := o.pr (Line.text ("  Total amount of global memory:   " ++
    toString env.totalGlobalMem ++ " bytes"))
  let o := o.pr (Line.text ("  64-bit Memory Address:           " ++
    (if 4 * 1024 * 1024 * 1024 < env.totalGlobalMem then "YES" else "NO")))
  let o := o.emit (Event.vendor "cuCtxCreate")
  if env.ctxCreate_res ≠ 0 then
    (Except.error (-1),
      ((o.epr (Line.text "* Error initializing the CUDA context.")).emit Event.destroyCtx))
  else
  let o := o.emit (Event.vendor "cuModuleLoad")
  if env.moduleLoad_res ≠ 0 then
    (Except.error (-1),
      ((o.epr (Line.text "* Error loading the module kernel.ptx")).emit Event.destroyCtx))
  else
  let o := o.emit (Event.vendor "cuModuleGetFunction")
  if env.getFunction_res ≠ 0 then
    (Except.error (-1),
      ((o.epr (Line.text "* Error getting kernel function Sum")).emit Event.destroyCtx))
  else (Except.ok (), o))))))

/-- Embedding of initCUDA from unified_memory.cpp (lines 39-105): same
as the driver variant plus the unified-addressing attribute check; a
missing-UVM device prints to stderr and exits without destroying the
context. -/
def unified_initCUDA (env : Env) (o : Output) : PResult :=
  let o := o.emit (Event.vendor "cuInit")
  let r :=
    if env.cuInit_res = 0 then
      checkCudaErrors env.deviceGetCount_res "unified_memory.cpp" 46
        (o.emit (Event.vendor "cuDeviceGetCount"))
    else (Except.ok (), o)
  pseq r (fun o =>
  let deviceCount : Int := if env.cuInit_res = 0 then env.deviceCount else 0
  if deviceCount = 0 then
    (Except.error (-1), o.epr (Line.text "Error: no devices supporting CUDA"))
  else
  pseq (checkCudaErrors env.deviceGet_res "unified_memory.cpp" 54
      (o.emit (Event.vendor "cuDeviceGet"))) (fun o =>
  let o := o.emit (Event.vendor "cuDeviceGetName")
  let o := o.pr (Line.text ("> Using device 0: " ++ env.deviceName))
  pseq (checkCudaErrors env.attrMajor_res "unified_memory.cpp" 61
      (o.emit (Event.vendor "cuDeviceGetAttribute"))) (fun o =>
  pseq (checkCudaErrors env.attrMinor_res "unified_memory.cpp" 62
      (o.emit (Event.vendor "cuDeviceGetAttribute"))) (fun o =>
  let o := o.pr (Line.text ("> GPU Device has SM " ++ toString env.major ++ "." ++
    toString env.minor ++ " compute capability"))
  pseq (checkCudaErrors env.totalMem_res "unified_memory.cpp" 65
      (o.emit (Event.vendor "cuDeviceTotalMem"))) (fun o =>
  let o := o.pr (Line.text ("  Total amount of global memory:   " ++
    toString env.totalGlobalMem ++ " bytes"))
  let o := o.pr (Line.text ("  64-bit Memory Address:           " ++
    (if 4 * 1024 * 1024 * 1024 < env.totalGlobalMem then "YES" else "NO")))
  pseq (checkCudaErrors env.uvmAttr_res "unified_memory.cpp" 74
      (o.emit (Event.vendor "cuDeviceGetAttribute"))) (fun o =>
  if env.hasUVM = 0 then
    (Except.error (-1),
      o.epr (Line.text "Unified Virtual Addressing is not supported on this device"))
  else
  let o := o.pr (Line.text "  Unified Virtual Addressing is supported on this device")
  let o := o.emit (Event.vendor "cuCtxCreate")
  if env.ctxCreate_res ≠ 0 then
    (Except.error (-1),
      ((o.epr (Line.text "* Error initializing the CUDA context.")).emit Event.destroyCtx))
  else
  let o := o.emit (Event.vendor "cuModuleLoad")
  if env.moduleLoad_res ≠ 0 then
    (Except.error (-1),
      ((o.epr (Line.text "* Error loading the module kernel.ptx")).emit Event.destroyCtx))
  else
  let o := o.emit (Event.vendor "cuModuleGetFunction")
  if env.getFunction_res ≠ 0 then
    (Except.error (-1),
      ((o.epr (Line.text "* Error getting kernel function Sum")).emit Event.destroyCtx))
  else (Except.ok (), o)))))))

/-- Grid x dimension computed by runKernel in both variants:
(n + block_size - 1) / block_size. -/
def gridDimX (n bs : Nat) : Nat := (n + bs - 1) / bs

/-- Embedding of runKernel from driver_api.cpp (lines 115-125): query
the max-block-dim attribute, then launch with grid
((n + block_size - 1) / block_size, 1, 1) and block (block_size, 1, 1),
passing n as the last kernel argument. -/
def driver_runKernel (env : Env) (n : Nat) (o : Output) : PResult :=
  pseq (checkCudaErrors env.attrBlockDim_res "driver_api.cpp" 119 o) (fun o =>
  let bs := env.blockSize
  checkCudaErrors env.launch_res "driver_api.cpp" 121
    (o.emit (Event.launch (gridDimX n bs) 1 1 bs 1 1 n)))

/-- Embedding of runKernel from unified_memory.cpp (lines 126-139):
identical launch geometry. -/
def unified_runKernel (env : Env) (n : Nat) (o : Output) : PResult :=
  pseq (checkCudaErrors env.attrBlockDim_res "unified_memory.cpp" 130 o) (fun o =>
  let bs := env.blockSize
  checkCudaErrors env.launch_res "unified_memory.cpp" 132
    (o.emit (Event.launch (gridDimX n bs) 1 1 bs 1 1 n)))

/-- Embedding of setupDeviceMemory from driver_api.cpp (lines 101-106):
three cuMemAlloc calls of n ints each, all checked. -/
def driver_setupDeviceMemory (env : Env) (n : Nat) (o : Output) : PResult :=
  pseq (checkCudaErrors env.memAllocA_res "driver_api.cpp" 103
      (o.emit (Event.allocBuf "d_a" n))) (fun o =>
  pseq (checkCudaErrors env.memAllocB_res "driver_api.cpp" 104
      (o.emit (Event.allocBuf "d_b" n))) (fun o =>
  checkCudaErrors env.memAllocC_res "driver_api.cpp" 105
    (o.emit (Event.allocBuf "d_c" n))))

/-- Embedding of setupDeviceMemory from unified_memory.cpp
(lines 112-117): three cuMemAllocHost calls of n ints each. -/
def unified_setupDeviceMemory (env : Env) (n : Nat) (o : Output) : PResult :=
  pseq (checkCudaErrors env.memAllocA_res "unified_memory.cpp" 114
      (o.emit (Event.allocBuf "d_a" n))) (fun o =>
  pseq (checkCudaErrors env.memAllocB_res "unified_memory.cpp" 115
      (o.emit (Event.allocBuf "d_b" n))) (fun o =>
  checkCudaErrors env.memAllocC_res "unified_memory.cpp" 116
    (o.emit (Event.allocBuf "d_c" n))))

/-- Embedding of releaseDeviceMemory from driver_api.cpp
(lines 108-113). -/
def driver_releaseDeviceMemory (env : Env) (o : Output) : PResult :=
  pseq (checkCudaErrors env.memFreeA_res "driver_api.cpp" 110
      (o.emit (Event.freeBuf "d_a"))) (fun o =>
  pseq (checkCudaErrors env.memFreeB_res "driver_api.cpp" 111
      (o.emit (Event.freeBuf "d_b"))) (fun o =>
  checkCudaErrors env.memFreeC_res "driver_api.cpp" 112
    (o.emit (Event.freeBuf "d_c"))))

/-- Embedding of releaseDeviceMemory from unified_memory.cpp
(lines 119-124). -/
def unified_releaseDeviceMemory (env : Env) (o : Output) : PResult :=
  pseq (checkCudaErrors env.memFreeA_res "unified_memory.cpp" 121
      (o.emit (Event.freeBuf "d_a"))) (fun o =>
  pseq (checkCudaErrors env.memFreeB_res "unified_memory.cpp" 122
      (o.emit (Event.freeBuf "d_b"))) (fun o =>
  checkCudaErrors env.memFreeC_res "unified_memory.cpp" 123
    (o.emit (Event.freeBuf "d_c"))))

/-- Embedding of finalizeCUDA (both files): cuCtxDestroy, result
ignored. -/
def finalizeCUDA (o : Output) : Output := o.emit Event.destroyCtx

/-- Embedding of main from driver_api.cpp (lines 127-169).  The host
arrays a and b are populated first, before any CUDA initialization;
main always returns 0 when it reaches the end, whatever the result
check found. -/
def driver_main (env : Env) : PResult :=
  let n := N
  let a := driver_a n
  let b := driver_b n
  let o := Output.empty.emit (Event.populateInputs n)
  let o := o.pr (Line.text "- Initializing...")
  pseq (driver_initCUDA env o) (fun o =>
  pseq (driver_setupDeviceMemory env n o) (fun o =>
  pseq (checkCudaErrors env.memcpyA_res "driver_api.cpp" 147
      (o.emit (Event.copyHtoD n))) (fun o =>
  pseq (checkCudaErrors env.memcpyB_res "driver_api.cpp" 148
      (o.emit (Event.copyHtoD n))) (fun o =>
  let o := o.pr (Line.text "# Running the kernel...")
  pseq (driver_runKernel env n o) (fun o =>
  let o := o.pr (Line.text "# Kernel complete.")
  pseq (checkCudaErrors env.memcpyDtoH_res "driver_api.cpp" 156
      (o.emit (Event.copyDtoH n))) (fun o =>
  let c := env.cOut
  let o := driverCheckLoop a b c n o
  let o := o.pr (Line.text "*** All checks complete.")
  let o := o.pr (Line.text "- Finalizing...")
  pseq (driver_releaseDeviceMemory env o) (fun o =>
  (Except.ok (), finalizeCUDA o))))))))

/-- Embedding of main from unified_memory.cpp (lines 141-195).  The
arrays are populated after allocation; after the launch the default
stream is synchronized (result ignored); the verification loop is run
twice in sequence; main always returns 0 when it reaches the end. -/
def unified_main (env : Env) : PResult :=
  let n := N
  let o := Output.empty.pr (Line.text "- Initializing...")
  pseq (unified_initCUDA env o) (fun o =>
  pseq (unified_setupDeviceMemory env n o) (fun o =>
  let a := unified_a n
  let b := unified_b n
  let o := o.emit (Event.populateInputs n)
  let o := o.pr (Line.text "# Running the kernel...")
  pseq (unified_runKernel env n o) (fun o =>
  let o := o.emit Event.sync
  let o := o.pr (Line.text "# Kernel complete.")
  let c := env.cOut
  let oc := unifiedCheckPass a b c n (o, true)
  let oc := unifiedCheckPass a b c n oc
  let o := oc.1
  let o :=
    if oc.2 then o.pr (Line.text "*** All checks complete.")
    else o.pr (Line.text "*** Result incorrect.")
  let o := o.pr (Line.text "- Finalizing...")
  pseq (unified_releaseDeviceMemory env o) (fun o =>
  (Except.ok (), finalizeCUDA o)))))

/-- Exit status of the process: 0 on normal return from main, the exit
argument otherwise. -/
def exitCodeOf : PResult → Int
  | (Except.ok _, _) => 0
  | (Except.error c, _) => c

def driver_exit (env : Env) : Int := exitCodeOf (driver_main env)

def driver_out (env : Env) : Output := (driver_main env).2

def unified_exit (env : Env) : Int := exitCodeOf (unified_main env)

def unified_out (env : Env) : Output := (unified_main env).2

/-- An environment in which every driver call succeeds: one device,
unified addressing available, max block dimension bs, and the kernel
leaving c in the output buffer. -/
def succEnv (bs : Nat) (c : List Int) : Env where
  cuInit_res := 0
  deviceGetCount_res := 0
  deviceCount := 1
  deviceGet_res := 0
  deviceGetName_res := 0
  deviceName := "Demo GPU"
  attrMajor_res := 0
  major := 7
  attrMinor_res := 0
  minor := 5
  totalMem_res := 0
  totalGlobalMem := 8589934592
  uvmAttr_res := 0
  hasUVM := 1
  ctxCreate_res := 0
  moduleLoad_res := 0
  getFunction_res := 0
  memAllocA_res := 0
  memAllocB_res := 0
  memAllocC_res := 0
  memcpyA_res := 0
  memcpyB_res := 0
  attrBlockDim_res := 0
  blockSize := bs
  launch_res := 0
  streamSync_res := 0
  memcpyDtoH_res := 0
  cOut := c
  memFreeA_res := 0
  memFreeB_res := 0
  memFreeC_res := 0
  ctxDestroy_res := 0

/-- The fixed stdout lines printed before the result check in a fully
successful driver_api run under succEnv. -/
def driverPre : List Line :=
  [Line.text "- Initializing...",
   Line.text "> Using device 0: Demo GPU",
   Line.text ("> GPU Device has SM " ++ toString (7 : Int) ++ "." ++ toString (5 : Int) ++
     " compute capability"),
   Line.text ("  Total amount of global memory:   " ++ toString (8589934592 : Nat) ++
     " bytes"),
   Line.text "  64-bit Memory Address:           YES",
   Line.text "# Running the kernel...",
   Line.text "# Kernel complete."]

/-- The fixed stdout lines printed before the result check in a fully
successful unified_memory run under succEnv. -/
def unifiedPre : List Line :=
  [Line.text "- Initializing...",
   Line.text "> Using device 0: Demo GPU",
   Line.text ("> GPU Device has SM " ++ toString (7 : Int) ++ "." ++ toString (5 : Int) ++
     " compute capability"),
   Line.text ("  Total amount of global memory:   " ++ toString (8589934592 : Nat) ++
     " bytes"),
   Line.text "  64-bit Memory Address:           YES",
   Line.text "  Unified Virtual Addressing is supported on this device",
   Line.text "# Running the kernel...",
   Line.text "# Kernel complete."]

/-- Trace of a successful driver_api run up to and including the
device-to-host copy. -/
def driverTracePre (bs : Nat) : List Event :=
  [Event.populateInputs 10,
   Event.vendor "cuInit", Event.vendor "cuDeviceGetCount", Event.vendor "cuDeviceGet",
   Event.vendor "cuDeviceGetName", Event.vendor "cuDeviceGetAttribute",
   Event.vendor "cuDeviceGetAttribute", Event.vendor "cuDeviceTotalMem",
   Event.vendor "cuCtxCreate", Event.vendor "cuModuleLoad",
   Event.vendor "cuModuleGetFunction",
   Event.allocBuf "d_a" 10, Event.allocBuf "d_b" 10, Event.allocBuf "d_c" 10,
   Event.copyHtoD 10, Event.copyHtoD 10,
   Event.launch (gridDimX 10 bs) 1 1 bs 1 1 10,
   Event.copyDtoH 10]

/-- Trace of a successful unified_memory run up to and including the
kernel launch (the stream synchronize follows). -/
def unifiedTracePre (bs : Nat) : List Event :=
  [Event.vendor "cuInit", Event.vendor "cuDeviceGetCount", Event.vendor "cuDeviceGet",
   Event.vendor "cuDeviceGetName", Event.vendor "cuDeviceGetAttribute",
   Event.vendor "cuDeviceGetAttribute", Event.vendor "cuDeviceTotalMem",
   Event.vendor "cuDeviceGetAttribute",
   Event.vendor "cuCtxCreate", Event.vendor "cuModuleLoad",
   Event.vendor "cuModuleGetFunction",
   Event.allocBuf "d_a" 10, Event.allocBuf "d_b" 10, Event.allocBuf "d_c" 10,
   Event.populateInputs 10,
   Event.launch (gridDimX 10 bs) 1 1 bs 1 1 10]

/-- Trace tail shared by both variants: the three frees and the context
destruction. -/
def traceTail : List Event :=
  [Event.freeBuf "d_a", Event.freeBuf "d_b", Event.freeBuf "d_c", Event.destroyCtx]

theorem driver_run_eq (bs : Nat) (c : List Int) :
    driver_main (succEnv bs c) =
      (Except.ok (),
       { stdout := driverPre ++ (checkLines (driver_a 10) (driver_b 10) c 10 ++
           [Line.text "*** All checks complete.", Line.text "- Finalizing..."]),
         stderr := [],
         trace := driverTracePre bs ++ (List.map Event.readOutput (List.range 10) ++
           traceTail) }) := by
  simp [driver_main, driver_initCUDA, driver_setupDeviceMemory, driver_runKernel,
    driver_releaseDeviceMemory, finalizeCUDA, succEnv, driverCheckLoop_spec,
    Output.pr, Output.epr, Output.emit, Output.empty, N, checkCudaErrors,
    driverPre, driverTracePre, traceTail]

theorem unified_run_eq (bs : Nat) (c : List Int) :
    unified_main (succEnv bs c) =
      (Except.ok (),
       { stdout := unifiedPre ++ (checkLines (unified_a 10) (unified_b 10) c 10 ++
           (checkLines (unified_a 10) (unified_b 10) c 10 ++
            [(if passOk (unified_a 10) (unified_b 10) c 10 then
                Line.text "*** All checks complete."
              else Line.text "*** Result incorrect."),
             Line.text "- Finalizing..."])),
         stderr := [],
         trace := unifiedTracePre bs ++ (Event.sync ::
           (List.map Event.readOutput (List.range 10) ++
            (List.map Event.readOutput (List.range 10) ++ traceTail))) }) := by
  by_cases hok : passOk (unified_a 10) (unified_b 10) c 10 <;>
    simp [hok, unified_main, unified_initCUDA, unified_setupDeviceMemory,
      unified_runKernel, unified_releaseDeviceMemory, finalizeCUDA, succEnv,
      unifiedCheckPass_spec, Output.pr, Output.epr, Output.emit, Output.empty, N,
      checkCudaErrors, unifiedPre, unifiedTracePre, traceTail]

theorem mem_checkLines (a b c : List Int) (n i : Nat) (h : i < n) :
    Line.errorAt i (a.getD i 0 + b.getD i 0) (c.getD i 0) ∈ checkLines a b c n ↔
      c.getD i 0 ≠ a.getD i 0 + b.getD i 0 := by
  constructor
  · intro hm
    rcases List.mem_filterMap.1 hm with ⟨j, _, hj⟩
    by_cases hcond : c.getD j 0 ≠ a.getD j 0 + b.getD j 0
    · rw [if_pos hcond] at hj
      obtain ⟨rfl, -, -⟩ := Line.errorAt.inj (Option.some.inj hj)
      exact hcond
    · rw [if_neg hcond] at hj
      exact absurd hj (by simp)
  · intro hne
    exact List.mem_filterMap.2 ⟨i, List.mem_range.2 h, by rw [if_pos hne]⟩

theorem text_not_mem_checkLines (a b c : List Int) (n : Nat) (s : String) :
    Line.text s ∉ checkLines a b c n := by
  intro hm
  rcases List.mem_filterMap.1 hm with ⟨j, -, hj⟩
  by_cases hcond : c.getD j 0 ≠ a.getD j 0 + b.getD j 0
  · rw [if_pos hcond] at hj
    exact absurd (Option.some.inj hj) (by simp)
  · rw [if_neg hcond] at hj
    exact absurd hj (by simp)

theorem checkLines_nodup (a b c : List Int) (n : Nat) :
    (checkLines a b c n).Nodup := by
  refine List.Nodup.filterMap ?_ (List.nodup_range n)
  intro j j' l hj hj'
  by_cases hcond : c.getD j 0 ≠ a.getD j 0 + b.getD j 0
  · rw [if_pos hcond] at hj
    by_cases hcond' : c.getD j' 0 ≠ a.getD j' 0 + b.getD j' 0
    · rw [if_pos hcond'] at hj'
      have h1 := Option.some.inj (Option.mem_def.1 hj)
      have h2 := Option.some.inj (Option.mem_def.1 hj')
      have := h1.trans h2.symm
      exact (Line.errorAt.inj this).1
    · rw [if_neg hcond'] at hj'
      exact absurd hj' (by simp)
  · rw [if_neg hcond] at hj
    exact absurd hj (by simp)

theorem count_checkLines_of_mismatch (a b c : List Int) (n i : Nat) (h : i < n)
    (hm : c.getD i 0 ≠ a.getD i 0 + b.getD i 0) :
    (checkLines a b c n).count (Line.errorAt i (a.getD i 0 + b.getD i 0) (c.getD i 0)) = 1 :=
  List.count_eq_one_of_mem (checkLines_nodup a b c n)
    ((mem_checkLines a b c n i h).2 hm)

theorem count_text_checkLines (a b c : List Int) (n : Nat) (s : String) :
    (checkLines a b c n).count (Line.text s) = 0 :=
  List.count_eq_zero_of_not_mem (text_not_mem_checkLines a b c n s)

/-- The expected value of the output at position i in the driver
variant: a[i] + b[i] for the populated host arrays. -/
def driverExpected (i : Nat) : Int := (driver_a N).getD i 0 + (driver_b N).getD i 0

/-- The expected value of the output at position i in the
unified-memory variant: d_a[i] + d_b[i] for the populated arrays. -/
def unifiedExpected (i : Nat) : Int := (unified_a N).getD i 0 + (unified_b N).getD i 0

/-- A correct kernel output: c[i] = a[i] + b[i] everywhere. -/
def cGood : List Int := (List.range N).map (fun i => ((N : Int) - i) + i * i)

/-- An everywhere-wrong kernel output. -/
def cBad : List Int := List.replicate N 0

/-- The coarse steps of the five-step procedure described for the two
programs. -/
inductive Step where
  | initHandles
  | allocBuffers
  | popInputs
  | launchKernel
  | fetchOutputs
  | releaseResources
deriving DecidableEq

/-- Classification of trace events into coarse steps.  The
host-to-device copies and the stream synchronize belong to no step of
the five-step description. -/
def stepOf : Event → Option Step
  | Event.vendor _ => some Step.initHandles
  | Event.populateInputs _ => some Step.popInputs
  | Event.allocBuf _ _ => some Step.allocBuffers
  | Event.copyHtoD _ => none
  | Event.copyDtoH _ => some Step.fetchOutputs
  | Event.launch _ _ _ _ _ _ _ => some Step.launchKernel
  | Event.sync => none
  | Event.readOutput _ => some Step.fetchOutputs
  | Event.freeBuf _ => some Step.releaseResources
  | Event.destroyCtx => some Step.releaseResources

/-- Collapse consecutive duplicates. -/
def squash : List Step → List Step
  | [] => []
  | [s] => [s]
  | s :: s2 :: rest => if s = s2 then squash (s2 :: rest) else s :: squash (s2 :: rest)

/-- The order of coarse steps a trace goes through. -/
def phasesOf (t : List Event) : List Step := squash (t.filterMap stepOf)

/-- The kernel launches in a trace, with their grid and block
dimensions and the trailing n argument. -/
def launchOf : Event → Option (Nat × Nat × Nat × Nat × Nat × Nat × Nat)
  | Event.launch gx gy gz bx b2 bz n => some (gx, gy, gz, bx, b2, bz, n)
  | _ => none

/-- The buffer allocations in a trace: buffer name and element count. -/
def allocOf : Event → Option (String × Nat)
  | Event.allocBuf s n => some (s, n)
  | _ => none

/-- The size bound an event carries, for the operations that take one. -/
def boundOf : Event → Option Nat
  | Event.populateInputs n => some n
  | Event.allocBuf _ n => some n
  | Event.copyHtoD n => some n
  | Event.copyDtoH n => some n
  | Event.launch _ _ _ _ _ _ n => some n
  | _ => none

/-- The index of a host read of the output array. -/
def readIdxOf : Event → Option Nat
  | Event.readOutput i => some i
  | _ => none

/-- How a driver-API call site handles the call's return code:
wrapped in the checkCudaErrors macro; tested by hand with a
descriptive message and exit but without printing the numeric code; or
ignored entirely. -/
inductive Handling where
  | wrappedCheck
  | manualCheck
  | unchecked
deriving DecidableEq

/-- A driver-API call site: function called, source line, handling of
its return code. -/
structure CallSite where
  fn : String
  srcLine : Nat
  handling : Handling
deriving DecidableEq

/-- Every CUDA driver-API call site of driver_api.cpp, in source
order, with how each return code is handled. -/
def driver_callSites : List CallSite :=
  [⟨"cuInit", 42, Handling.manualCheck⟩,
   ⟨"cuDeviceGetCount", 46, Handling.wrappedCheck⟩,
   ⟨"cuDeviceGet", 54, Handling.wrappedCheck⟩,
   ⟨"cuDeviceGetName", 57, Handling.unchecked⟩,
   ⟨"cuDeviceGetAttribute", 61, Handling.wrappedCheck⟩,
   ⟨"cuDeviceGetAttribute", 62, Handling.wrappedCheck⟩,
   ⟨"cuDeviceTotalMem", 65, Handling.wrappedCheck⟩,
   ⟨"cuCtxCreate", 72, Handling.manualCheck⟩,
   ⟨"cuModuleLoad", 78, Handling.manualCheck⟩,
   ⟨"cuModuleGetFunction", 84, Handling.manualCheck⟩,
   ⟨"cuCtxDestroy", 92, Handling.unchecked⟩,
   ⟨"cuCtxDestroy", 98, Handling.unchecked⟩,
   ⟨"cuMemAlloc", 103, Handling.wrappedCheck⟩,
   ⟨"cuMemAlloc", 104, Handling.wrappedCheck⟩,
   ⟨"cuMemAlloc", 105, Handling.wrappedCheck⟩,
   ⟨"cuMemFree", 110, Handling.wrappedCheck⟩,
   ⟨"cuMemFree", 111, Handling.wrappedCheck⟩,
   ⟨"cuMemFree", 112, Handling.wrappedCheck⟩,
   ⟨"cuDeviceGetAttribute", 119, Handling.wrappedCheck⟩,
   ⟨"cuLaunchKernel", 121, Handling.wrappedCheck⟩,
   ⟨"cuMemcpyHtoD", 147, Handling.wrappedCheck⟩,
   ⟨"cuMemcpyHtoD", 148, Handling.wrappedCheck⟩,
   ⟨"cuMemcpyDtoH", 156, Handling.wrappedCheck⟩]

/-- Every CUDA driver-API call site of unified_memory.cpp, in source
order, with how each return code is handled. -/
def unified_callSites : List CallSite :=
  [⟨"cuInit", 42, Handling.manualCheck⟩,
   ⟨"cuDeviceGetCount", 46, Handling.wrappedCheck⟩,
   ⟨"cuDeviceGet", 54, Handling.wrappedCheck⟩,
   ⟨"cuDeviceGetName", 57, Handling.unchecked⟩,
   ⟨"cuDeviceGetAttribute", 61, Handling.wrappedCheck⟩,
   ⟨"cuDeviceGetAttribute", 62, Handling.wrappedCheck⟩,
   ⟨"cuDeviceTotalMem", 65, Handling.wrappedCheck⟩,
   ⟨"cuDeviceGetAttribute", 74, Handling.wrappedCheck⟩,
   ⟨"cuCtxCreate", 82, Handling.manualCheck⟩,
   ⟨"cuModuleLoad", 88, Handling.manualCheck⟩,
   ⟨"cuModuleGetFunction", 94, Handling.manualCheck⟩,
   ⟨"cuCtxDestroy", 102, Handling.unchecked⟩,
   ⟨"cuCtxDestroy", 109, Handling.unchecked⟩,
   ⟨"cuMemAllocHost", 114, Handling.wrappedCheck⟩,
   ⟨"cuMemAllocHost", 115, Handling.wrappedCheck⟩,
   ⟨"cuMemAllocHost", 116, Handling.wrappedCheck⟩,
   ⟨"cuMemFreeHost", 121, Handling.wrappedCheck⟩,
   ⟨"cuMemFreeHost", 122, Handling.wrappedCheck⟩,
   ⟨"cuMemFreeHost", 123, Handling.wrappedCheck⟩,
   ⟨"cuDeviceGetAttribute", 130, Handling.wrappedCheck⟩,
   ⟨"cuLaunchKernel", 132, Handling.wrappedCheck⟩,
   ⟨"cuStreamSynchronize", 165, Handling.unchecked⟩]

theorem driver_stdout_errorAt_iff (bs : Nat) (c : List Int) (i : Nat) (h : i < 10) :
    Line.errorAt i (driverExpected i) (c.getD i 0) ∈ (driver_out (succEnv bs c)).stdout ↔
      c.getD i 0 ≠ driverExpected i := by
  simp only [driverExpected, N]
  show Line.errorAt i ((driver_a 10).getD i 0 + (driver_b 10).getD i 0) (c.getD i 0) ∈
      (driver_main (succEnv bs c)).2.stdout ↔ _
  rw [driver_run_eq]
  show _ ∈ driverPre ++ (checkLines (driver_a 10) (driver_b 10) c 10 ++
      [Line.text "*** All checks complete.", Line.text "- Finalizing..."]) ↔ _
  rw [List.mem_append, List.mem_append]
  have hpre : Line.errorAt i ((driver_a 10).getD i 0 + (driver_b 10).getD i 0)
      (c.getD i 0) ∉ driverPre := by simp [driverPre]
  have htail : Line.errorAt i ((driver_a 10).getD i 0 + (driver_b 10).getD i 0)
      (c.getD i 0) ∉ [Line.text "*** All checks complete.", Line.text "- Finalizing..."] := by
    simp
  have hmid := mem_checkLines (driver_a 10) (driver_b 10) c 10 i h
  tauto

theorem unified_stdout_errorAt_iff (bs : Nat) (c : List Int) (i : Nat) (h : i < 10) :
    Line.errorAt i (unifiedExpected i) (c.getD i 0) ∈ (unified_out (succEnv bs c)).stdout ↔
      c.getD i 0 ≠ unifiedExpected i := by
  simp only [unifiedExpected, N]
  show Line.errorAt i ((unified_a 10).getD i 0 + (unified_b 10).getD i 0) (c.getD i 0) ∈
      (unified_main (succEnv bs c)).2.stdout ↔ _
  rw [unified_run_eq]
  show _ ∈ unifiedPre ++ (checkLines (unified_a 10) (unified_b 10) c 10 ++
      (checkLines (unified_a 10) (unified_b 10) c 10 ++
        [(if passOk (unified_a 10) (unified_b 10) c 10 then
            Line.text "*** All checks complete."
          else Line.text "*** Result incorrect."), Line.text "- Finalizing..."])) ↔ _
  rw [List.mem_append, List.mem_append, List.mem_append]
  have hpre : Line.errorAt i ((unified_a 10).getD i 0 + (unified_b 10).getD i 0)
      (c.getD i 0) ∉ unifiedPre := by simp [unifiedPre]
  have htail : Line.errorAt i ((unified_a 10).getD i 0 + (unified_b 10).getD i 0)
      (c.getD i 0) ∉
      [(if passOk (unified_a 10) (unified_b 10) c 10 then
          Line.text "*** All checks complete."
        else Line.text "*** Result incorrect."), Line.text "- Finalizing..."] := by
    by_cases hok : passOk (unified_a 10) (unified_b 10) c 10 <;> simp [hok]
  have hmid := mem_checkLines (unified_a 10) (unified_b 10) c 10 i h
  tauto

/-- C1: for every index i with i below n = 10, the result check accepts
position i exactly when the output c[i] equals a[i] + b[i]: the error
line naming i, the expected value a[i] + b[i] and the got value c[i]
appears on stdout exactly when c[i] differs from a[i] + b[i], in both
program variants. -/
theorem claim_C1 (bs : Nat) (c : List Int) (i : Nat) (h : i < 10) :
    (Line.errorAt i (driverExpected i) (c.getD i 0) ∈ (driver_out (succEnv bs c)).stdout ↔
      c.getD i 0 ≠ driverExpected i)
    ∧ (Line.errorAt i (unifiedExpected i) (c.getD i 0) ∈ (unified_out (succEnv bs c)).stdout ↔
      c.getD i 0 ≠ unifiedExpected i) :=
  ⟨driver_stdout_errorAt_iff bs c i h, unified_stdout_errorAt_iff bs c i h⟩

/-- Witness for C1 at bs = 4, c with a mismatch at position 0. -/
theorem claim_C1_witness :
    (0 : Nat) < 10
    ∧ ((Line.errorAt 0 (driverExpected 0) (cBad.getD 0 0) ∈
          (driver_out (succEnv 4 cBad)).stdout ↔ cBad.getD 0 0 ≠ driverExpected 0)
       ∧ (Line.errorAt 0 (unifiedExpected 0) (cBad.getD 0 0) ∈
          (unified_out (succEnv 4 cBad)).stdout ↔ cBad.getD 0 0 ≠ unifiedExpected 0)) :=
  ⟨by decide, claim_C1 4 cBad 0 (by decide)⟩

/-- C2 is refuted: with every driver call succeeding and the output
array all zero, position 0 mismatches (expected 10, got 0), yet both
variants exit with status 0. -/
theorem claim_C2_counterexample :
    cBad.getD 0 0 ≠ driverExpected 0
    ∧ cBad.getD 0 0 ≠ unifiedExpected 0
    ∧ driver_exit (succEnv 1024 cBad) = 0
    ∧ unified_exit (succEnv 1024 cBad) = 0 := by decide


/-- An environment identical to succEnv except that the first buffer
allocation returns e. -/
def allocFailEnv (bs : Nat) (c : List Int) (e : Int) : Env where
  cuInit_res := 0
  deviceGetCount_res := 0
  deviceCount := 1
  deviceGet_res := 0
  deviceGetName_res := 0
  deviceName := "Demo GPU"
  attrMajor_res := 0
  major := 7
  attrMinor_res := 0
  minor := 5
  totalMem_res := 0
  totalGlobalMem := 8589934592
  uvmAttr_res := 0
  hasUVM := 1
  ctxCreate_res := 0
  moduleLoad_res := 0
  getFunction_res := 0
  memAllocA_res := e
  memAllocB_res := 0
  memAllocC_res := 0
  memcpyA_res := 0
  memcpyB_res := 0
  attrBlockDim_res := 0
  blockSize := bs
  launch_res := 0
  streamSync_res := 0
  memcpyDtoH_res := 0
  cOut := c
  memFreeA_res := 0
  memFreeB_res := 0
  memFreeC_res := 0
  ctxDestroy_res := 0

/-- C2 amended: the program exits 0 whenever every driver call
succeeds, whatever the outputs are (mismatches are only reported as
stdout lines); it exits -1 with a stderr message carrying the numeric
code when a checked driver call fails, here shown for the first buffer
allocation failing with code 1, in both variants. -/
theorem claim_C2_amended (bs : Nat) (c : List Int) :
    driver_exit (succEnv bs c) = 0
    ∧ unified_exit (succEnv bs c) = 0
    ∧ driver_exit (allocFailEnv 4 [] 1) = -1
    ∧ (driver_out (allocFailEnv 4 [] 1)).stderr = [Line.cudaError 1 "driver_api.cpp" 103]
    ∧ unified_exit (allocFailEnv 4 [] 1) = -1
    ∧ (unified_out (allocFailEnv 4 [] 1)).stderr =
        [Line.cudaError 1 "unified_memory.cpp" 114] := by
  refine ⟨?_, ?_, by decide, by decide, by decide, by decide⟩
  · show exitCodeOf (driver_main (succEnv bs c)) = 0
    rw [driver_run_eq]
    rfl
  · show exitCodeOf (unified_main (succEnv bs c)) = 0
    rw [unified_run_eq]
    rfl

/-- An environment in which only cuDeviceGetName fails. -/
def nameFailEnv : Env := { succEnv 16 cGood with deviceGetName_res := 999 }

/-- An environment in which only cuStreamSynchronize fails. -/
def syncFailEnv : Env := { succEnv 16 cGood with streamSync_res := 999 }

/-- C3 is refuted: cuDeviceGetName (both variants), cuCtxDestroy and
cuStreamSynchronize (unified variant) have their return codes ignored;
with cuDeviceGetName, or the stream synchronize, returning error 999
and everything else succeeding, the program still exits 0 and prints
nothing to stderr. -/
theorem claim_C3_counterexample :
    CallSite.mk "cuDeviceGetName" 57 Handling.unchecked ∈ driver_callSites
    ∧ CallSite.mk "cuStreamSynchronize" 165 Handling.unchecked ∈ unified_callSites
    ∧ nameFailEnv.deviceGetName_res = 999
    ∧ driver_exit nameFailEnv = 0
    ∧ (driver_out nameFailEnv).stderr = []
    ∧ unified_exit nameFailEnv = 0
    ∧ (unified_out nameFailEnv).stderr = []
    ∧ syncFailEnv.streamSync_res = 999
    ∧ unified_exit syncFailEnv = 0
    ∧ (unified_out syncFailEnv).stderr = [] := by
  refine ⟨by decide, by decide, by decide, by decide, by decide, by decide, by decide,
    by decide, by decide, by decide⟩

/-- C3 amended: the calls wrapped in the checkCudaErrors macro do print
the numeric code, file and line to stderr and terminate with -1 on any
non-success code; but cuDeviceGetName, cuCtxDestroy and (in the
unified variant) cuStreamSynchronize are not checked at all, and
cuInit, cuCtxCreate, cuModuleLoad and cuModuleGetFunction are checked
by hand with a descriptive message, not the numeric code, before
terminating. -/
theorem claim_C3_amended (e : Int) (he : e ≠ 0) (f : String) (l : Nat) (o : Output) :
    checkCudaErrors e f l o = (Except.error (-1), o.epr (Line.cudaError e f l))
    ∧ (∀ s ∈ driver_callSites, s.handling ≠ Handling.wrappedCheck →
        s.fn ∈ ["cuInit", "cuCtxCreate", "cuModuleLoad", "cuModuleGetFunction",
                "cuDeviceGetName", "cuCtxDestroy"])
    ∧ (∀ s ∈ unified_callSites, s.handling ≠ Handling.wrappedCheck →
        s.fn ∈ ["cuInit", "cuCtxCreate", "cuModuleLoad", "cuModuleGetFunction",
                "cuDeviceGetName", "cuCtxDestroy", "cuStreamSynchronize"]) :=
  ⟨checkCudaErrors_ne e he f l o, by decide, by decide⟩

/-- Witness for the amended C3 at code 1. -/
theorem claim_C3_amended_witness :
    checkCudaErrors 1 "f" 0 Output.empty =
      (Except.error (-1), Output.empty.epr (Line.cudaError 1 "f" 0)) :=
  (claim_C3_amended 1 (by decide) "f" 0 Output.empty).1

/-- C4: in the unified-memory variant the verification loop over
indices below n runs twice in sequence (the duplicate-loop defect), so
with the arrays unchanged between the passes every mismatching
position has its error line on stdout exactly twice while the final
verdict line appears exactly once; the stdout is literally two copies
of the one-pass line list between the fixed prefix and the verdict. -/
theorem claim_C4 (bs : Nat) (c : List Int) (i : Nat) (h : i < 10)
    (hm : c.getD i 0 ≠ unifiedExpected i) :
    ((unified_out (succEnv bs c)).stdout.count
        (Line.errorAt i (unifiedExpected i) (c.getD i 0)) = 2)
    ∧ ((unified_out (succEnv bs c)).stdout.count (Line.text "*** All checks complete.") +
       (unified_out (succEnv bs c)).stdout.count (Line.text "*** Result incorrect.") = 1)
    ∧ (∃ pre post, (unified_out (succEnv bs c)).stdout =
        pre ++ (checkLines (unified_a 10) (unified_b 10) c 10 ++
          (checkLines (unified_a 10) (unified_b 10) c 10 ++ post))) := by
  simp only [unifiedExpected, N, unified_out] at hm ⊢
  have hok : passOk (unified_a 10) (unified_b 10) c 10 = false := by
    rw [passOk, List.all_eq_false]
    refine ⟨i, List.mem_range.2 h, ?_⟩
    simpa using hm
  rw [unified_run_eq]
  dsimp only
  rw [hok]
  simp only [Bool.false_eq_true, if_false]
  refine ⟨?_, ?_, ?_⟩
  · rw [List.count_append, List.count_append, List.count_append]
    have c1 : unifiedPre.count
        (Line.errorAt i ((unified_a 10).getD i 0 + (unified_b 10).getD i 0)
          (c.getD i 0)) = 0 :=
      List.count_eq_zero_of_not_mem (by simp [unifiedPre])
    have c2 := count_checkLines_of_mismatch (unified_a 10) (unified_b 10) c 10 i h hm
    have c3 : ([Line.text "*** Result incorrect.", Line.text "- Finalizing..."]).count
        (Line.errorAt i ((unified_a 10).getD i 0 + (unified_b 10).getD i 0)
          (c.getD i 0)) = 0 :=
      List.count_eq_zero_of_not_mem (by simp)
    rw [c1, c2, c3]
  · rw [List.count_append, List.count_append, List.count_append,
      List.count_append, List.count_append, List.count_append]
    have d1 : unifiedPre.count (Line.text "*** All checks complete.") = 0 := by decide
    have d2 : unifiedPre.count (Line.text "*** Result incorrect.") = 0 := by decide
    have d3 := count_text_checkLines (unified_a 10) (unified_b 10) c 10
      "*** All checks complete."
    have d4 := count_text_checkLines (unified_a 10) (unified_b 10) c 10
      "*** Result incorrect."
    have d5 : ([Line.text "*** Result incorrect.", Line.text "- Finalizing..."]).count
        (Line.text "*** All checks complete.") = 0 := by decide
    have d6 : ([Line.text "*** Result incorrect.", Line.text "- Finalizing..."]).count
        (Line.text "*** Result incorrect.") = 1 := by decide
    rw [d1, d2, d3, d4, d5, d6]
  · exact ⟨unifiedPre, [Line.text "*** Result incorrect.", Line.text "- Finalizing..."], rfl⟩

/-- Witness for C4 at bs = 4, c all zero, position 0. -/
theorem claim_C4_witness :
    ((unified_out (succEnv 4 cBad)).stdout.count
        (Line.errorAt 0 (unifiedExpected 0) (cBad.getD 0 0)) = 2)
    ∧ ((unified_out (succEnv 4 cBad)).stdout.count (Line.text "*** All checks complete.") +
       (unified_out (succEnv 4 cBad)).stdout.count (Line.text "*** Result incorrect.") = 1)
    ∧ (∃ pre post, (unified_out (succEnv 4 cBad)).stdout =
        pre ++ (checkLines (unified_a 10) (unified_b 10) cBad 10 ++
          (checkLines (unified_a 10) (unified_b 10) cBad 10 ++ post))) :=
  claim_C4 4 cBad 0 (by decide) (by decide)

/-- C5 is refuted: in driver_api.cpp the host input arrays are
populated before the CUDA handles are initialized, so the coarse step
order of a successful driver run is populate, initialize, allocate,
launch, fetch, release rather than the claimed initialize, allocate,
populate, launch, fetch, release. -/
theorem claim_C5_counterexample :
    phasesOf (driver_out (succEnv 8 cGood)).trace ≠
      [Step.initHandles, Step.allocBuffers, Step.popInputs, Step.launchKernel,
       Step.fetchOutputs, Step.releaseResources]
    ∧ phasesOf (driver_out (succEnv 8 cGood)).trace =
      [Step.popInputs, Step.initHandles, Step.allocBuffers, Step.launchKernel,
       Step.fetchOutputs, Step.releaseResources] := by
  refine ⟨by decide, by decide⟩

/-- C5 amended: the unified-memory variant does follow the five-step
order initialize, allocate, populate, launch, fetch, release; the
driver variant performs the same steps but populates its host input
arrays first, before initializing the handles (and copies them to the
device between allocation and launch), so initialization precedes
population only in the unified variant. -/
theorem claim_C5_amended (bs : Nat) (c : List Int) :
    phasesOf (unified_out (succEnv bs c)).trace =
      [Step.initHandles, Step.allocBuffers, Step.popInputs, Step.launchKernel,
       Step.fetchOutputs, Step.releaseResources]
    ∧ phasesOf (driver_out (succEnv bs c)).trace =
      [Step.popInputs, Step.initHandles, Step.allocBuffers, Step.launchKernel,
       Step.fetchOutputs, Step.releaseResources] := by
  have hr : List.range 10 = [0, 1, 2, 3, 4, 5, 6, 7, 8, 9] := rfl
  constructor
  · simp only [unified_out]
    rw [unified_run_eq]
    dsimp only
    rw [hr]
    simp [phasesOf, unifiedTracePre, traceTail, stepOf, squash]
  · simp only [driver_out]
    rw [driver_run_eq]
    dsimp only
    rw [hr]
    simp [phasesOf, driverTracePre, traceTail, stepOf, squash]

/-- C6: for n and block_size at least 1 the grid x dimension
(n + block_size - 1) / block_size is the ceiling of n / block_size
(least q with n at most q * block_size); in both variants the one
launch uses that grid x dimension for n = 10, block x dimension equal
to the queried max-block-dim attribute, and all other dimensions 1. -/
theorem claim_C6 (n bs : Nat) (hn : 1 ≤ n) (hb : 1 ≤ bs) (c : List Int) :
    gridDimX n bs = (n + bs - 1) / bs
    ∧ n ≤ gridDimX n bs * bs
    ∧ (∀ q : Nat, n ≤ q * bs → gridDimX n bs ≤ q)
    ∧ (driver_out (succEnv bs c)).trace.filterMap launchOf =
        [(gridDimX 10 bs, 1, 1, bs, 1, 1, 10)]
    ∧ (unified_out (succEnv bs c)).trace.filterMap launchOf =
        [(gridDimX 10 bs, 1, 1, bs, 1, 1, 10)] := by
  have hb0 : 0 < bs := hb
  have key : gridDimX n bs = (n - 1) / bs + 1 := by
    rw [gridDimX]
    have hsplit : n + bs - 1 = (n - 1) + bs := by omega
    rw [hsplit, Nat.add_div_right _ hb0]
  have hr : List.range 10 = [0, 1, 2, 3, 4, 5, 6, 7, 8, 9] := rfl
  refine ⟨rfl, ?_, ?_, ?_, ?_⟩
  · rw [key]
    have h2 : (n - 1) / bs < (n - 1) / bs + 1 := Nat.lt_succ_self _
    have h3 := (Nat.div_lt_iff_lt_mul hb0).1 h2
    omega
  · intro q hq
    rw [key]
    have hnz : n ≠ 0 := by omega
    have h5 : n - 1 < q * bs := lt_of_lt_of_le (Nat.pred_lt hnz) hq
    exact Nat.succ_le_of_lt ((Nat.div_lt_iff_lt_mul hb0).2 h5)
  · simp only [driver_out]
    rw [driver_run_eq]
    dsimp only
    rw [hr]
    simp [driverTracePre, traceTail, launchOf]
  · simp only [unified_out]
    rw [unified_run_eq]
    dsimp only
    rw [hr]
    simp [unifiedTracePre, traceTail, launchOf]

/-- Witness for C6 at n = 10, bs = 3, c = nil. -/
theorem claim_C6_witness :
    gridDimX 10 3 = (10 + 3 - 1) / 3
    ∧ 10 ≤ gridDimX 10 3 * 3
    ∧ (∀ q : Nat, 10 ≤ q * 3 → gridDimX 10 3 ≤ q)
    ∧ (driver_out (succEnv 3 [])).trace.filterMap launchOf =
        [(gridDimX 10 3, 1, 1, 3, 1, 1, 10)]
    ∧ (unified_out (succEnv 3 [])).trace.filterMap launchOf =
        [(gridDimX 10 3, 1, 1, 3, 1, 1, 10)] :=
  claim_C6 10 3 (by decide) (by decide) []

/-- C7: in the unified-memory variant the trace splits around exactly
one stream-synchronize event; the single kernel launch lies before it
and every host read of the output array lies after it. -/
theorem claim_C7 (bs : Nat) (c : List Int) :
    ∃ pre post,
      (unified_out (succEnv bs c)).trace = pre ++ Event.sync :: post
      ∧ Event.sync ∉ pre
      ∧ Event.sync ∉ post
      ∧ Event.launch (gridDimX 10 bs) 1 1 bs 1 1 10 ∈ pre
      ∧ (∀ i, Event.readOutput i ∉ pre)
      ∧ (unified_out (succEnv bs c)).trace.filterMap launchOf =
          [(gridDimX 10 bs, 1, 1, bs, 1, 1, 10)] := by
  refine ⟨unifiedTracePre bs,
    List.map Event.readOutput (List.range 10) ++
      (List.map Event.readOutput (List.range 10) ++ traceTail), ?_, ?_, ?_, ?_, ?_, ?_⟩
  · simp only [unified_out]
    rw [unified_run_eq]
  · simp [unifiedTracePre]
  · simp [traceTail, List.mem_map]
  · simp [unifiedTracePre]
  · intro i
    simp [unifiedTracePre]
  · have hr : List.range 10 = [0, 1, 2, 3, 4, 5, 6, 7, 8, 9] := rfl
    simp only [unified_out]
    rw [unified_run_eq]
    dsimp only
    rw [hr]
    simp [unifiedTracePre, traceTail, launchOf]

/-- C8: each variant works on exactly three arrays named d_a, d_b, d_c
of n = N = 10 elements: the allocations, the population of the inputs,
the host-device copies, the n argument of the kernel launch and the
indices of the verification reads all use the same bound 10. -/
theorem claim_C8 (bs : Nat) (c : List Int) :
    N = 10
    ∧ (driver_out (succEnv bs c)).trace.filterMap allocOf =
        [("d_a", 10), ("d_b", 10), ("d_c", 10)]
    ∧ (unified_out (succEnv bs c)).trace.filterMap allocOf =
        [("d_a", 10), ("d_b", 10), ("d_c", 10)]
    ∧ (driver_out (succEnv bs c)).trace.filterMap boundOf =
        [10, 10, 10, 10, 10, 10, 10, 10]
    ∧ (unified_out (succEnv bs c)).trace.filterMap boundOf = [10, 10, 10, 10, 10]
    ∧ (driver_out (succEnv bs c)).trace.filterMap readIdxOf = List.range 10
    ∧ (unified_out (succEnv bs c)).trace.filterMap readIdxOf =
        List.range 10 ++ List.range 10 := by
  have hr : List.range 10 = [0, 1, 2, 3, 4, 5, 6, 7, 8, 9] := rfl
  refine ⟨rfl, ?_, ?_, ?_, ?_, ?_, ?_⟩ <;>
    first
      | (simp only [driver_out]
         rw [driver_run_eq]
         dsimp only
         rw [hr]
         simp [driverTracePre, traceTail, allocOf, boundOf, readIdxOf])
      | (simp only [unified_out]
         rw [unified_run_eq]
         dsimp only
         rw [hr]
         simp [unifiedTracePre, traceTail, allocOf, boundOf, readIdxOf])

/-- C9: when cuInit returns a non-success code, initCUDA of either
variant never calls cuDeviceGetCount, so deviceCount keeps its initial
value 0 and the run ends with exit -1 after printing only the
no-devices message to stderr; in particular no numeric-code stderr
line is printed, so the cuInit failure code is never reported. -/
theorem claim_C9 (env : Env) (he : env.cuInit_res ≠ 0) :
    driver_initCUDA env Output.empty =
      (Except.error (-1),
       { stdout := [], stderr := [Line.text "Error: no devices supporting CUDA"],
         trace := [Event.vendor "cuInit"] })
    ∧ unified_initCUDA env Output.empty =
      (Except.error (-1),
       { stdout := [], stderr := [Line.text "Error: no devices supporting CUDA"],
         trace := [Event.vendor "cuInit"] })
    ∧ Event.vendor "cuDeviceGetCount" ∉ (driver_initCUDA env Output.empty).2.trace
    ∧ Event.vendor "cuDeviceGetCount" ∉ (unified_initCUDA env Output.empty).2.trace
    ∧ (∀ code f l, Line.cudaError code f l ∉ (driver_initCUDA env Output.empty).2.stderr)
    ∧ (∀ code f l, Line.cudaError code f l ∉ (unified_initCUDA env Output.empty).2.stderr) := by
  have h1 : driver_initCUDA env Output.empty =
      (Except.error (-1),
       { stdout := [], stderr := [Line.text "Error: no devices supporting CUDA"],
         trace := [Event.vendor "cuInit"] }) := by
    simp [driver_initCUDA, he, Output.empty, Output.emit, Output.epr, checkCudaErrors]
  have h2 : unified_initCUDA env Output.empty =
      (Except.error (-1),
       { stdout := [], stderr := [Line.text "Error: no devices supporting CUDA"],
         trace := [Event.vendor "cuInit"] }) := by
    simp [unified_initCUDA, he, Output.empty, Output.emit, Output.epr, checkCudaErrors]
  refine ⟨h1, h2, ?_, ?_, ?_, ?_⟩
  · rw [h1]
    simp
  · rw [h2]
    simp
  · intro code f l
    rw [h1]
    simp
  · intro code f l
    rw [h2]
    simp

/-- An environment in which cuInit fails with code 7. -/
def initFailEnv : Env := { succEnv 1 [] with cuInit_res := 7 }

/-- Witness for C9 with cuInit failing with code 7. -/
theorem claim_C9_witness :
    driver_initCUDA initFailEnv Output.empty =
      (Except.error (-1),
       { stdout := [], stderr := [Line.text "Error: no devices supporting CUDA"],
         trace := [Event.vendor "cuInit"] })
    ∧ unified_initCUDA initFailEnv Output.empty =
      (Except.error (-1),
       { stdout := [], stderr := [Line.text "Error: no devices supporting CUDA"],
         trace := [Event.vendor "cuInit"] })
    ∧ Event.vendor "cuDeviceGetCount" ∉ (driver_initCUDA initFailEnv Output.empty).2.trace
    ∧ Event.vendor "cuDeviceGetCount" ∉ (unified_initCUDA initFailEnv Output.empty).2.trace
    ∧ (∀ code f l,
        Line.cudaError code f l ∉ (driver_initCUDA initFailEnv Output.empty).2.stderr)
    ∧ (∀ code f l,
        Line.cudaError code f l ∉ (unified_initCUDA initFailEnv Output.empty).2.stderr) :=
  claim_C9 initFailEnv (by decide)

/-- C10: in both variants the two addend arrays are populated
identically: for every i below n = 10, a[i] = n - i and b[i] = i * i,
so the expected output at i is (n - i) + i * i. -/
theorem claim_C10 (i : Nat) (h : i < 10) :
    (driver_a N).getD i 0 = (10 : Int) - (i : Int)
    ∧ (driver_b N).getD i 0 = (i : Int) * (i : Int)
    ∧ (unified_a N).getD i 0 = (10 : Int) - (i : Int)
    ∧ (unified_b N).getD i 0 = (i : Int) * (i : Int)
    ∧ driverExpected i = ((10 : Int) - (i : Int)) + (i : Int) * (i : Int)
    ∧ unifiedExpected i = ((10 : Int) - (i : Int)) + (i : Int) * (i : Int) := by
  revert h
  revert i
  decide

/-- Witness for C10 at i = 3. -/
theorem claim_C10_witness :
    (driver_a N).getD 3 0 = (10 : Int) - (3 : Int)
    ∧ (driver_b N).getD 3 0 = (3 : Int) * (3 : Int)
    ∧ (unified_a N).getD 3 0 = (10 : Int) - (3 : Int)
    ∧ (unified_b N).getD 3 0 = (3 : Int) * (3 : Int)
    ∧ driverExpected 3 = ((10 : Int) - (3 : Int)) + (3 : Int) * (3 : Int)
    ∧ unifiedExpected 3 = ((10 : Int) - (3 : Int)) + (3 : Int) * (3 : Int) :=
  claim_C10 3 (by decide)
